import Mathlib

/-
Verification of the QuackCore integration registry
(`src/quackcore/integrations/registry.py`) and of the specialized LLM
provider registry described by the specification and its tests
(`tests/test_integrations/llms/test_registry.py`).

The Python code is shallowly embedded: the registry's `dict[str,
IntegrationProtocol]` becomes an association list kept in insertion order
(Python dicts preserve insertion order and have unique keys); candidate
objects are modelled by a record of the duck-typed attributes the registry
probes; Python exceptions become `Except` values; the optional plugin-loader
collaborator and the module/entry-point resolution environment are explicit
parameters describing the outcome of each external call.
-/

namespace Quack

/-- Outcome of invoking a Python callable with no arguments: it either raises
an exception (of one of the kinds the registry code catches) or returns a
value. -/
inductive CallResult (α : Type) where
  | raises
  | returns (v : α)
deriving DecidableEq

/-- A candidate object handed to the registry by some discovery strategy.
The fields record exactly the duck-typed observations the registry code
makes: object identity `oid`, the `name` attribute value, presence of the
four contract attributes, and callability of `initialize` / `is_available`. -/
structure Candidate where
  oid : Nat
  name : String
  hasName : Bool
  hasVersion : Bool
  hasInitialize : Bool
  hasIsAvailable : Bool
  initializeCallable : Bool
  isAvailableCallable : Bool
deriving DecidableEq

/-- The structural conformance check performed at lines 366-371, 400-405 and
463-468 of `registry.py`: the four attributes are present and
`initialize` / `is_available` are callable. -/
def structuralCheck (c : Candidate) : Bool :=
  c.hasName && c.hasVersion && c.hasInitialize && c.hasIsAvailable &&
    c.initializeCallable && c.isAvailableCallable

/-- The weaker check performed for the special-cased `TestIntegration`
attribute at lines 438-441 of `registry.py`: attribute presence only, with
no callability requirement. -/
def presenceCheck (c : Candidate) : Bool :=
  c.hasName && c.hasVersion && c.hasInitialize && c.hasIsAvailable

/-- Modelled from the spec: `quackcore.integrations.protocols` (defining
`IntegrationProtocol`, used via `isinstance` at lines 320 and 330 of
`registry.py`) is not among the source files. The spec states that
conformance "in every case is a structural check: presence of `name`,
`version`, `initialize`, `is_available` attributes, with `initialize` and
`is_available` additionally required to be callable". -/
def isinstanceIntegrationProtocol (c : Candidate) : Bool :=
  structuralCheck c

/-- The `QuackError` exceptions raised by the registry module: the
duplicate-registration error of `register` (line 60) and the module-load
error of `load_integration_module` (lines 203 and 211). -/
inductive QuackError where
  | duplicateIntegration (name : String)
  | moduleLoad (modulePath : String) (msg : String)
deriving DecidableEq

/-- The registry table `self._integrations : dict[str, IntegrationProtocol]`,
modelled as an association list in insertion order. -/
abbrev Registry := List (String × Candidate)

/-- `IntegrationRegistry.register` (lines 48-65): raises `QuackError` when the
candidate's name is already a key, otherwise inserts the entry. The pure
embedding returns the updated table; on the error branch no table is
returned, which models that the Python code raises before any mutation. -/
def register (reg : Registry) (integration : Candidate) :
    Except QuackError Registry :=
  if integration.name ∈ reg.map Prod.fst then
    .error (.duplicateIntegration integration.name)
  else
    .ok (reg ++ [(integration.name, integration)])

/-- `IntegrationRegistry.unregister` (lines 67-83): deletes the entry when the
name is a key and reports whether a deletion happened; never raises. -/
def unregister (reg : Registry) (name : String) : Bool × Registry :=
  if name ∈ reg.map Prod.fst then
    (true, reg.filter (fun p => decide (p.1 ≠ name)))
  else
    (false, reg)

/-- `IntegrationRegistry.get_integration` (lines 85-95): `dict.get`. -/
def get_integration (reg : Registry) (name : String) : Option Candidate :=
  (reg.find? (fun p => p.1 == name)).map Prod.snd

/-- `IntegrationRegistry.get_integration_by_type` (lines 97-109): yields the
table's values filtered by the `isinstance` test against the requested type,
modelled as a boolean predicate on candidates. -/
def get_integration_by_type (reg : Registry) (p : Candidate → Bool) :
    List Candidate :=
  (reg.map Prod.snd).filter p

/-- `IntegrationRegistry.list_integrations` (lines 111-118): the current key
list. -/
def list_integrations (reg : Registry) : List String :=
  reg.map Prod.fst

/-- `IntegrationRegistry.is_registered` (lines 120-130): key membership. -/
def is_registered (reg : Registry) (name : String) : Bool :=
  decide (name ∈ reg.map Prod.fst)

/-- A sequence of `register` calls, as performed by a caller registering a
list of integrations one by one; the first `QuackError` aborts the
sequence. -/
def registerSequence (reg : Registry) : List Candidate → Except QuackError Registry
  | [] => .ok reg
  | c :: cs =>
    match register reg c with
    | .ok r => registerSequence r cs
    | .error e => .error e

/-- Reachable registry tables: every entry was inserted by `register` under
the candidate's own `name` attribute, so keys are pairwise distinct and each
key equals its value's name. -/
def RegistryWF (reg : Registry) : Prop :=
  (reg.map Prod.fst).Nodup ∧ ∀ p ∈ reg, p.1 = p.2.name

/-- Outcome of `plugin_loader.load_plugin(entry.value)` inside
`_load_integration_from_entry` (lines 317-325): an `ImportError` or
`AttributeError` is caught locally and the code falls back to the entry
point's own loader; any other exception is caught by the enclosing handler
(lines 337-346), making the entry yield nothing; or an object is returned. -/
inductive PluginOutcome where
  | importError
  | otherError
  | returns (c : Candidate)
deriving DecidableEq

/-- Behaviour of an entry point's own `entry.load()` / factory call
(lines 327-336): loading may raise, the loaded factory may be non-callable,
the factory call may raise, or it returns an object. -/
inductive EntryLoadResult where
  | raises
  | nonCallable
  | factoryRaises
  | factoryReturns (c : Candidate)
deriving DecidableEq

/-- An entry-point descriptor: `name`, `value`, and the behaviour of its
`load()` operation. -/
structure EntryPoint where
  name : String
  value : String
  loadResult : EntryLoadResult
deriving DecidableEq

/-- The standard fallback of `_load_integration_from_entry` (lines 326-336):
load the entry point, call it if callable, and accept the result when the
`isinstance` check against `IntegrationProtocol` passes; every failure makes
the entry yield nothing (exceptions are caught at lines 337-346). -/
def entryFactoryFallback (e : EntryPoint) : Option Candidate :=
  match e.loadResult with
  | .raises => none
  | .nonCallable => none
  | .factoryRaises => none
  | .factoryReturns c =>
    if isinstanceIntegrationProtocol c then some c else none

/-- `IntegrationRegistry._load_integration_from_entry` (lines 302-347): try
the plugin loader first when available, accepting an `isinstance`-conformant
result; otherwise (or when the plugin loader fails with an import/attribute
error, or returns a non-conformant object) fall back to the entry point's
own loader. All exceptions are contained, so the function is total. -/
def load_integration_from_entry (e : EntryPoint)
    (plugin_loader : Option (String → PluginOutcome)) : Option Candidate :=
  match plugin_loader with
  | none => entryFactoryFallback e
  | some loader =>
    match loader e.value with
    | .returns c =>
      if isinstanceIntegrationProtocol c then some c else entryFactoryFallback e
    | .importError => entryFactoryFallback e
    | .otherError => none

/-- The register-and-collect loop shared by `discover_integrations`
(lines 145-154) and the class-scan branch of `load_integration_module`
(lines 231-236): each candidate is registered; a `QuackError` from
`register` is caught and logged, the candidate is dropped, and processing
continues with the remaining candidates. -/
def registerAll (reg : Registry) (cs : List Candidate) :
    Registry × List Candidate :=
  cs.foldl
    (fun st c =>
      match register st.1 c with
      | .ok r => (r, st.2 ++ [c])
      | .error _ => st)
    (reg, [])

/-- `IntegrationRegistry.discover_integrations` (lines 132-156): resolve each
entry point, register every candidate obtained, swallow per-candidate
registration errors, and return the newly registered integrations. -/
def discover_integrations (reg : Registry)
    (plugin_loader : Option (String → PluginOutcome))
    (entry_points_list : List EntryPoint) : Registry × List Candidate :=
  entry_points_list.foldl
    (fun st e =>
      match load_integration_from_entry e plugin_loader with
      | none => st
      | some c =>
        match register st.1 c with
        | .ok r => (r, st.2 ++ [c])
        | .error _ => st)
    (reg, [])

/-- Outcome of `plugin_loader.load_plugin(module_path)` inside
`_load_integration_with_plugin_loader` (lines 349-379): the caught exception
kinds (`ImportError`, `AttributeError`, `TypeError`, `ValueError`) are
logged and yield nothing, or an object is returned. -/
inductive PluginModuleOutcome where
  | caughtError
  | returns (c : Candidate)
deriving DecidableEq

/-- Presence and behaviour of the module's `create_integration` attribute as
probed by `_load_integration_from_factory` (lines 394-415). -/
inductive FactoryAttr where
  | absent
  | notCallable
  | callRaises
  | callReturns (c : Candidate)
deriving DecidableEq

/-- Presence and behaviour of the module's special-cased `TestIntegration`
attribute as probed at lines 432-444: absent, present but not a class, a
class whose instantiation raises, or a class instantiating to an object. -/
inductive TestClassAttr where
  | absent
  | notClass
  | clsRaises
  | clsReturns (c : Candidate)
deriving DecidableEq

/-- A module attribute seen by the `dir(module)` scan (lines 447-477):
either not a class, or a class with its `__module__`-locality, its identity
with the `IntegrationProtocol` class, and its zero-argument instantiation
behaviour. -/
inductive ModuleAttr where
  | nonClass
  | cls (definedInModule : Bool) (isProtocolClass : Bool)
      (instantiation : CallResult Candidate)
deriving DecidableEq

/-- A resolved Python module as observed by the registry: its
`create_integration` attribute, its `TestIntegration` attribute, and the
named attributes enumerated by `dir(module)`. -/
structure PyModule where
  create_integration : FactoryAttr
  testIntegration : TestClassAttr
  attrs : List (String × ModuleAttr)
deriving DecidableEq

/-- How the identifier given to `load_integration_module` resolves
(lines 190-215): found in `sys.modules`, freshly imported, or failing with
an `ImportError`. -/
inductive ModuleResolution where
  | cached (m : PyModule)
  | imported (m : PyModule)
  | importFails (msg : String)
deriving DecidableEq

/-- `IntegrationRegistry._load_integration_with_plugin_loader`
(lines 349-379): ask the plugin loader (when present) to resolve the module
path and accept the result exactly when the duck-typed structural check of
lines 366-371 passes; caught loader errors yield nothing. -/
def load_integration_with_plugin_loader (module_path : String)
    (plugin_loader : Option (String → PluginModuleOutcome)) :
    Option Candidate :=
  match plugin_loader with
  | none => none
  | some loader =>
    match loader module_path with
    | .caughtError => none
    | .returns c => if structuralCheck c then some c else none

/-- `IntegrationRegistry._load_integration_from_factory` (lines 381-415):
when the module has a callable `create_integration` attribute, call it and
accept the result exactly when the structural check of lines 400-405 passes;
in every other case (attribute missing, not callable, call raising, result
non-conformant) yield nothing. -/
def load_integration_from_factory (m : PyModule) : Option Candidate :=
  match m.create_integration with
  | .callReturns c => if structuralCheck c then some c else none
  | _ => none

/-- Python `str.startswith`, modelled on the underlying character list
(Lean's own `String.startsWith` is not kernel-reducible). -/
def pyStartsWith (s pre : String) : Bool :=
  pre.data.isPrefixOf s.data

/-- One step of the `dir(module)` scan of lines 447-477: names starting with
an underscore and the name `TestIntegration` are skipped; a class defined in
this module and distinct from `IntegrationProtocol` is instantiated, and the
instance is kept exactly when the structural check of lines 463-468 passes.
Instantiation errors are caught and yield nothing. -/
def scanAttr : String × ModuleAttr → Option Candidate
  | (attr_name, a) =>
    if pyStartsWith attr_name "_" || attr_name == "TestIntegration" then none
    else
      match a with
      | .nonClass => none
      | .cls definedInModule isProtocolClass inst =>
        if definedInModule && !isProtocolClass then
          match inst with
          | .raises => none
          | .returns c => if structuralCheck c then some c else none
        else none

/-- `IntegrationRegistry._load_integrations_from_module` (lines 417-479):
the special-cased `TestIntegration` class is checked first and its instance
kept under the presence-only check of lines 438-441; then every other
module-local class is instantiated and kept under the full structural
check. -/
def load_integrations_from_module (m : PyModule) : List Candidate :=
  (match m.testIntegration with
   | .clsReturns c => if presenceCheck c then [c] else []
   | _ => []) ++
  m.attrs.filterMap scanAttr

/-- The module-import portion of `load_integration_module` (lines 189-241):
resolve the module (an import failure raises the module-load `QuackError`),
then try the `create_integration` factory — on a conformant result register
it and return it alone, falling through to the class scan when registration
fails with a duplicate name — and finally register and return every
conformant instance found by the class scan. -/
def moduleFallback (reg : Registry) (module_path : String)
    (resolution : ModuleResolution) :
    Except QuackError (Registry × List Candidate) :=
  match resolution with
  | .importFails msg => .error (.moduleLoad module_path msg)
  | .cached m | .imported m =>
    match load_integration_from_factory m with
    | some c =>
      match register reg c with
      | .ok r => .ok (r, [c])
      | .error _ => .ok (registerAll reg (load_integrations_from_module m))
    | none => .ok (registerAll reg (load_integrations_from_module m))

/-- `IntegrationRegistry.load_integration_module` (lines 158-241): first the
plugin-loader strategy — on a conformant result whose registration succeeds,
return it alone; when its registration raises a duplicate-name `QuackError`
the error is caught and logged (lines 184-187) and the module-import
fallback chain runs; when the plugin loader yields nothing, the fallback
chain runs as well. -/
def load_integration_module (reg : Registry) (module_path : String)
    (plugin_loader : Option (String → PluginModuleOutcome))
    (resolution : ModuleResolution) :
    Except QuackError (Registry × List Candidate) :=
  match load_integration_with_plugin_loader module_path plugin_loader with
  | some c =>
    match register reg c with
    | .ok r => .ok (r, [c])
    | .error _ => moduleFallback reg module_path resolution
  | none => moduleFallback reg module_path resolution

/-- A conformant sample candidate named `alpha`. -/
def cAlpha : Candidate :=
  ⟨0, "alpha", true, true, true, true, true, true⟩

/-- A second conformant sample candidate, also named `alpha`. -/
def cAlpha2 : Candidate :=
  ⟨1, "alpha", true, true, true, true, true, true⟩

/-- A conformant sample candidate named `beta`. -/
def cBeta : Candidate :=
  ⟨2, "beta", true, true, true, true, true, true⟩

/-- A conformant sample candidate named `gamma`. -/
def cGamma : Candidate :=
  ⟨3, "gamma", true, true, true, true, true, true⟩

/-- A non-conformant sample object: all four attributes are present but
neither `initialize` nor `is_available` is callable. -/
def cNonConformant : Candidate :=
  ⟨4, "nonconformant", true, true, true, true, false, false⟩

/-- A sample object with all four attributes present but a non-callable
`initialize`: it passes the presence-only check and fails the full
structural check. -/
def cBadInit : Candidate :=
  ⟨5, "badinit", true, true, true, true, false, true⟩

/-- A sample module whose only integration source is a `TestIntegration`
class instantiating to `cBadInit`. -/
def pyModuleTestOnly : PyModule :=
  ⟨.absent, .clsReturns cBadInit, []⟩

/-- A sample module with no factory and no `TestIntegration` attribute. -/
def pyModuleEmpty : PyModule :=
  ⟨.absent, .absent, []⟩

/-- A sample module whose `create_integration` factory returns `cGamma`. -/
def pyModuleFactory : PyModule :=
  ⟨.callReturns cGamma, .absent, []⟩

/-- Python `str.lower`, modelled on the underlying character list (Lean's
`String.toLower` is not kernel-reducible). -/
def pyToLower (s : String) : String :=
  ⟨s.data.map Char.toLower⟩

/-- Construction options handed to an LLM provider constructor: the model
identifier, the API key, and the mock provider's scripted responses. -/
structure LLMOptions where
  model : Option String
  api_key : Option String
  script : List String
deriving DecidableEq

/-- The observable state of a constructed LLM client: which provider built
it and with which options; the mock client records its script verbatim. -/
structure LLMClient where
  provider : String
  model : Option String
  api_key : Option String
  script : List String
deriving DecidableEq

/-- Modelled from the spec: the LLM provider registry module
(`quackcore.integrations.llms.registry`, holding `_LLM_REGISTRY`) is not
among the source files — only its tests are. Per the spec, the Provider
Table is a mapping from lowercase provider name to a constructor taking the
option bundle and returning a client. -/
abbrev LLMRegistry := List (String × (LLMOptions → LLMClient))

/-- Modelled from the spec: the distinguished mock provider's constructor, a
deterministic pass-through client that records the scripted responses. -/
def MockLLMClient (opts : LLMOptions) : LLMClient :=
  ⟨"mock", opts.model, opts.api_key, opts.script⟩

/-- Modelled from the spec and the tests (`get_llm_client` in
`tests/test_integrations/llms/test_registry.py`): resolution lowercases the
provider name, looks it up in the Provider Table, and on a miss raises the
unsupported-provider error whose message enumerates the registered provider
names; on a hit it invokes the matched constructor on the supplied
options. -/
def get_llm_client (registry : LLMRegistry) (provider : String)
    (opts : LLMOptions) : Except String LLMClient :=
  match registry.find? (fun p => p.1 == pyToLower provider) with
  | some entry => .ok (entry.2 opts)
  | none =>
    .error ("Unsupported LLM provider: " ++ provider ++
      ". Registered providers: " ++
      String.intercalate ", " (registry.map Prod.fst))

/-- Helper: a filter that drops the entries with a given key leaves a list
with no such key untouched. -/
theorem filter_ne_key_of_not_mem (name : String) :
    ∀ (l : Registry), name ∉ l.map Prod.fst →
      l.filter (fun p => decide (p.1 ≠ name)) = l := by
  intro l hl
  apply List.filter_eq_self.mpr
  intro p hp
  simp only [decide_eq_true_eq]
  intro hpn
  exact hl (List.mem_map.mpr ⟨p, hp, hpn⟩)

/-- Helper: with pairwise-distinct keys, dropping the entries carrying a
present key removes exactly one entry. -/
theorem filter_ne_key_length (name : String) :
    ∀ (l : Registry), (l.map Prod.fst).Nodup → name ∈ l.map Prod.fst →
      (l.filter (fun p => decide (p.1 ≠ name))).length + 1 = l.length := by
  intro l
  induction l with
  | nil => intro _ h; simp at h
  | cons p t ih =>
    intro hnd hmem
    simp only [List.map_cons, List.nodup_cons] at hnd
    by_cases hp : p.1 = name
    · have ht : name ∉ t.map Prod.fst := hp ▸ hnd.1
      have hcond : decide (p.1 ≠ name) = false := by simp [hp]
      rw [List.filter_cons, hcond, if_neg (by simp),
        filter_ne_key_of_not_mem name t ht, List.length_cons]
    · simp only [List.map_cons, List.mem_cons] at hmem
      rcases hmem with hmem | hmem
      · exact absurd hmem.symm hp
      · simp only [List.filter_cons, decide_eq_true_eq]
        rw [if_pos hp]
        simp only [List.length_cons]
        rw [← ih hnd.2 hmem]

/-- Claim C1: registering a candidate whose name is already a key of the
table raises the duplicate-registration `QuackError`; since the embedding is
pure and the error branch returns no table, the table is left exactly as it
was. -/
theorem registerDuplicateRaises (reg : Registry) (c : Candidate)
    (h : is_registered reg c.name = true) :
    register reg c = .error (.duplicateIntegration c.name) := by
  unfold is_registered at h
  unfold register
  simp only [decide_eq_true_eq] at h
  simp [h]

/-- Witness for C1 at a concrete one-entry table. -/
theorem registerDuplicateRaisesWitness :
    register [("alpha", cAlpha)] cAlpha2 =
      .error (.duplicateIntegration "alpha") :=
  registerDuplicateRaises [("alpha", cAlpha)] cAlpha2 (by decide)

/-- Claim C7: `unregister` never raises (it is a total function); on a
present name it returns `true`, the name is no longer registered afterwards,
exactly one entry is removed, and every other entry survives; on an absent
name it returns `false` and the table is unchanged. -/
theorem unregisterSpec (reg : Registry) (name : String)
    (hnd : (list_integrations reg).Nodup) :
    (is_registered reg name = true →
       (unregister reg name).1 = true ∧
       is_registered (unregister reg name).2 name = false ∧
       ((unregister reg name).2).length + 1 = reg.length ∧
       ∀ p ∈ reg, p.1 ≠ name → p ∈ (unregister reg name).2) ∧
    (is_registered reg name = false → unregister reg name = (false, reg)) := by
  unfold is_registered unregister list_integrations at *
  constructor
  · intro hmem
    simp only [decide_eq_true_eq] at hmem
    rw [if_pos hmem]
    refine ⟨rfl, ?_, ?_, ?_⟩
    · simp only [decide_eq_true_eq, decide_eq_false_iff_not]
      intro hcontra
      rcases List.mem_map.mp hcontra with ⟨p, hp, hpn⟩
      have := (List.mem_filter.mp hp).2
      simp only [decide_eq_true_eq] at this
      exact this hpn
    · exact filter_ne_key_length name reg hnd hmem
    · intro p hp hne
      exact List.mem_filter.mpr ⟨hp, by simpa using hne⟩
  · intro habs
    simp only [decide_eq_false_iff_not] at habs
    rw [if_neg habs]

/-- Witness for C7 at a concrete two-entry table. -/
theorem unregisterSpecWitness :
    (is_registered [("alpha", cAlpha), ("beta", cBeta)] "alpha" = true →
       (unregister [("alpha", cAlpha), ("beta", cBeta)] "alpha").1 = true ∧
       is_registered (unregister [("alpha", cAlpha), ("beta", cBeta)] "alpha").2
         "alpha" = false ∧
       ((unregister [("alpha", cAlpha), ("beta", cBeta)] "alpha").2).length + 1 =
         ([("alpha", cAlpha), ("beta", cBeta)] : Registry).length ∧
       ∀ p ∈ ([("alpha", cAlpha), ("beta", cBeta)] : Registry), p.1 ≠ "alpha" →
         p ∈ (unregister [("alpha", cAlpha), ("beta", cBeta)] "alpha").2) ∧
    (is_registered [("alpha", cAlpha), ("beta", cBeta)] "alpha" = false →
       unregister [("alpha", cAlpha), ("beta", cBeta)] "alpha" =
         (false, [("alpha", cAlpha), ("beta", cBeta)])) :=
  unregisterSpec [("alpha", cAlpha), ("beta", cBeta)] "alpha" (by decide)

/-- Helper for C8: a sequence of registrations of fresh, pairwise-distinct
names succeeds and appends the corresponding entries in order. -/
theorem registerSequence_ok (cs : List Candidate) : ∀ (reg : Registry),
    (∀ c ∈ cs, is_registered reg c.name = false) →
    (cs.map Candidate.name).Nodup →
    registerSequence reg cs = .ok (reg ++ cs.map (fun c => (c.name, c))) := by
  induction cs with
  | nil => intro reg _ _; simp [registerSequence]
  | cons c cs ih =>
    intro reg hfresh hnd
    have hc : c.name ∉ reg.map Prod.fst := by
      have := hfresh c (List.mem_cons_self c cs)
      unfold is_registered at this
      simpa using this
    simp only [List.map_cons, List.nodup_cons] at hnd
    have hfresh2 : ∀ c' ∈ cs,
        is_registered (reg ++ [(c.name, c)]) c'.name = false := by
      intro c' hc'
      unfold is_registered
      simp only [List.map_append, List.map_cons, List.map_nil,
        decide_eq_false_iff_not, List.mem_append, List.mem_singleton]
      rintro (hmem | hmem)
      · have := hfresh c' (List.mem_cons_of_mem c hc')
        unfold is_registered at this
        simp only [decide_eq_false_iff_not] at this
        exact this hmem
      · exact hnd.1 (hmem ▸ List.mem_map_of_mem Candidate.name hc')
    unfold registerSequence register
    rw [if_neg hc]
    show registerSequence (reg ++ [(c.name, c)]) cs = _
    rw [ih (reg ++ [(c.name, c)]) hfresh2 hnd.2]
    simp

/-- Claim C8: starting from the empty table, registering a list of
candidates with pairwise-distinct names succeeds and `list_integrations`
returns exactly those names, in order and without duplicates. -/
theorem registerDistinctListNames (cs : List Candidate)
    (hnd : (cs.map Candidate.name).Nodup) :
    ∃ r, registerSequence [] cs = .ok r ∧
      list_integrations r = cs.map Candidate.name ∧
      (list_integrations r).Nodup := by
  refine ⟨cs.map (fun c => (c.name, c)), ?_, ?_, ?_⟩
  · simpa using registerSequence_ok cs [] (by intro c _; rfl) hnd
  · unfold list_integrations
    simp [List.map_map, Function.comp]
  · unfold list_integrations
    simpa [List.map_map, Function.comp] using hnd

/-- Witness for C8 on two concrete candidates with distinct names. -/
theorem registerDistinctListNamesWitness :
    ∃ r, registerSequence [] [cAlpha, cBeta] = .ok r ∧
      list_integrations r = [cAlpha, cBeta].map Candidate.name ∧
      (list_integrations r).Nodup :=
  registerDistinctListNames [cAlpha, cBeta] (by decide)

/-- Claim C9: `get_integration_by_type` with a predicate rejecting every
registered instance yields the empty sequence; with a predicate accepting
every registered instance it yields exactly the table's values, and on a
reachable table (unique keys, each key the value's name) that output has no
duplicates, so each registered instance occurs exactly once. -/
theorem getByTypeSpec (reg : Registry) (p q : Candidate → Bool)
    (hp : ∀ c ∈ reg.map Prod.snd, p c = false)
    (hq : ∀ c ∈ reg.map Prod.snd, q c = true)
    (hwf : RegistryWF reg) :
    get_integration_by_type reg p = [] ∧
    get_integration_by_type reg q = reg.map Prod.snd ∧
    (get_integration_by_type reg q).Nodup := by
  have hall : get_integration_by_type reg q = reg.map Prod.snd := by
    unfold get_integration_by_type
    exact List.filter_eq_self.mpr hq
  refine ⟨?_, hall, ?_⟩
  · unfold get_integration_by_type
    apply List.filter_eq_nil_iff.mpr
    intro c hc
    simp [hp c hc]
  · rw [hall]
    have hmapeq : reg.map Prod.fst = (reg.map Prod.snd).map Candidate.name := by
      rw [List.map_map]
      exact List.map_congr_left (fun a ha => hwf.2 a ha)
    have : ((reg.map Prod.snd).map Candidate.name).Nodup := hmapeq ▸ hwf.1
    exact List.Nodup.of_map Candidate.name this

/-- Witness for C9 at a concrete two-entry table with the constant-false and
constant-true predicates. -/
theorem getByTypeSpecWitness :
    get_integration_by_type [("alpha", cAlpha), ("beta", cBeta)]
      (fun _ => false) = [] ∧
    get_integration_by_type [("alpha", cAlpha), ("beta", cBeta)]
      (fun _ => true) =
      ([("alpha", cAlpha), ("beta", cBeta)] : Registry).map Prod.snd ∧
    (get_integration_by_type [("alpha", cAlpha), ("beta", cBeta)]
      (fun _ => true)).Nodup :=
  getByTypeSpec [("alpha", cAlpha), ("beta", cBeta)] (fun _ => false)
    (fun _ => true) (by intro c _; rfl) (by intro c _; rfl)
    ⟨by decide, by decide⟩

/-- Helper: the module-import fallback chain raises only the module-load
error, and only when the resolution is an import failure. -/
theorem moduleFallback_error_shape (reg : Registry) (mp : String)
    (res : ModuleResolution) (err : QuackError)
    (h : moduleFallback reg mp res = .error err) :
    ∃ msg, err = .moduleLoad mp msg ∧ res = .importFails msg := by
  cases res with
  | importFails msg =>
    simp only [moduleFallback] at h
    injection h with h
    exact ⟨msg, h.symm, rfl⟩
  | cached m =>
    exfalso
    simp only [moduleFallback] at h
    cases hf : load_integration_from_factory m with
    | none => simp [hf] at h
    | some c =>
      simp only [hf] at h
      cases hr : register reg c with
      | ok r => simp [hr] at h
      | error e => simp [hr] at h
  | imported m =>
    exfalso
    simp only [moduleFallback] at h
    cases hf : load_integration_from_factory m with
    | none => simp [hf] at h
    | some c =>
      simp only [hf] at h
      cases hr : register reg c with
      | ok r => simp [hr] at h
      | error e => simp [hr] at h

/-- Claim C2: with three entry points — one resolving to a conformant
candidate, one to a non-conformant object, one raising during resolution —
`discover_integrations` registers exactly the conformant candidate, returns
it, and raises nothing (it is a total function); and a duplicate-name
candidate among the entries is contained per-candidate, leaving the
remaining entries processed normally. -/
theorem discoverEntryPoints (reg : Registry) (c1 c2 cdup : Candidate)
    (n1 n2 n3 v1 v2 v3 : String)
    (h1 : isinstanceIntegrationProtocol c1 = true)
    (h2 : isinstanceIntegrationProtocol c2 = false)
    (hd : isinstanceIntegrationProtocol cdup = true)
    (hfresh : is_registered reg c1.name = false)
    (hdup : is_registered reg cdup.name = true) :
    discover_integrations reg none
        [⟨n2, v2, .factoryReturns c2⟩, ⟨n3, v3, .raises⟩,
         ⟨n1, v1, .factoryReturns c1⟩] =
      (reg ++ [(c1.name, c1)], [c1]) ∧
    discover_integrations reg none
        [⟨n3, v3, .factoryReturns cdup⟩, ⟨n2, v2, .factoryReturns c2⟩,
         ⟨n1, v1, .factoryReturns c1⟩] =
      (reg ++ [(c1.name, c1)], [c1]) := by
  have hm : c1.name ∉ reg.map Prod.fst := by
    simpa [is_registered] using hfresh
  have hmd : cdup.name ∈ reg.map Prod.fst := by
    simpa [is_registered] using hdup
  constructor
  · simp [discover_integrations, load_integration_from_entry,
      entryFactoryFallback, register, h1, h2, hm]
  · simp [discover_integrations, load_integration_from_entry,
      entryFactoryFallback, register, h1, h2, hd, hm, hmd]

/-- Witness for C2: a one-entry table, a fresh conformant candidate, a
non-conformant object, a raising entry, and a duplicate-name conformant
candidate. -/
theorem discoverEntryPointsWitness :
    discover_integrations [("alpha", cAlpha)] none
        [⟨"bad", "pkg.bad", .factoryReturns cNonConformant⟩,
         ⟨"err", "pkg.err", .raises⟩,
         ⟨"good", "pkg.good", .factoryReturns cBeta⟩] =
      ([("alpha", cAlpha)] ++ [(cBeta.name, cBeta)], [cBeta]) ∧
    discover_integrations [("alpha", cAlpha)] none
        [⟨"err", "pkg.err", .factoryReturns cAlpha2⟩,
         ⟨"bad", "pkg.bad", .factoryReturns cNonConformant⟩,
         ⟨"good", "pkg.good", .factoryReturns cBeta⟩] =
      ([("alpha", cAlpha)] ++ [(cBeta.name, cBeta)], [cBeta]) :=
  discoverEntryPoints [("alpha", cAlpha)] cBeta cNonConformant cAlpha2
    "good" "bad" "err" "pkg.good" "pkg.bad" "pkg.err"
    (by decide) (by decide) (by decide) (by decide) (by decide)

/-- Claim C4: the module-load fallback chain runs plugin loader, then
factory attribute, then class scan, short-circuiting on the single-result
paths. A conformant plugin-loader result with a fresh name is registered and
returned alone — the conclusion holds for every `res`, so the module is
never even resolved; a conformant factory result with a fresh name is
registered and returned alone for every attribute list; and a module with no
plugin loader, no factory, and two local instantiable conformant classes
yields both instances registered and returned. -/
theorem loadModulePriorityOrder :
    (∀ (reg : Registry) (mp : String)
       (pl : Option (String → PluginModuleOutcome)) (res : ModuleResolution)
       (c : Candidate),
       load_integration_with_plugin_loader mp pl = some c →
       is_registered reg c.name = false →
       load_integration_module reg mp pl res =
         .ok (reg ++ [(c.name, c)], [c])) ∧
    (∀ (reg : Registry) (mp : String)
       (pl : Option (String → PluginModuleOutcome)) (m : PyModule)
       (c : Candidate),
       load_integration_with_plugin_loader mp pl = none →
       load_integration_from_factory m = some c →
       is_registered reg c.name = false →
       load_integration_module reg mp pl (.imported m) =
         .ok (reg ++ [(c.name, c)], [c])) ∧
    (∀ (reg : Registry) (mp : String) (c1 c2 : Candidate),
       structuralCheck c1 = true → structuralCheck c2 = true →
       is_registered reg c1.name = false →
       is_registered reg c2.name = false →
       c1.name ≠ c2.name →
       load_integration_module reg mp none
         (.imported ⟨.absent, .absent,
            [("IntegrationOne", .cls true false (.returns c1)),
             ("IntegrationTwo", .cls true false (.returns c2))]⟩) =
         .ok (reg ++ [(c1.name, c1), (c2.name, c2)], [c1, c2])) := by
  refine ⟨?_, ?_, ?_⟩
  · intro reg mp pl res c hpl hfresh
    have hm : c.name ∉ reg.map Prod.fst := by
      simpa [is_registered] using hfresh
    simp [load_integration_module, hpl, register, hm]
  · intro reg mp pl m c hpl hf hfresh
    have hm : c.name ∉ reg.map Prod.fst := by
      simpa [is_registered] using hfresh
    simp [load_integration_module, hpl, moduleFallback, hf, register, hm]
  · intro reg mp c1 c2 h1 h2 hf1 hf2 hne
    have hm1 : c1.name ∉ reg.map Prod.fst := by
      simpa [is_registered] using hf1
    have hm2 : c2.name ∉ reg.map Prod.fst := by
      simpa [is_registered] using hf2
    have hsc1 : scanAttr ("IntegrationOne", .cls true false (.returns c1)) =
        if structuralCheck c1 then some c1 else none := rfl
    have hsc2 : scanAttr ("IntegrationTwo", .cls true false (.returns c2)) =
        if structuralCheck c2 then some c2 else none := rfl
    simp [load_integration_module, load_integration_with_plugin_loader,
      moduleFallback, load_integration_from_factory,
      load_integrations_from_module, hsc1, hsc2, h1, h2, registerAll,
      register, hm1, hm2, Ne.symm hne]

/-- Witness for C4: each conjunct at a concrete input — a plugin loader
returning `cGamma` against an unresolvable module, a factory module, and a
two-class module. -/
theorem loadModulePriorityOrderWitness :
    load_integration_module [] "pkg.mod"
        (some fun _ => PluginModuleOutcome.returns cGamma)
        (.importFails "boom") =
      .ok (([] : Registry) ++ [(cGamma.name, cGamma)], [cGamma]) ∧
    load_integration_module [] "pkg.mod" none (.imported pyModuleFactory) =
      .ok (([] : Registry) ++ [(cGamma.name, cGamma)], [cGamma]) ∧
    load_integration_module [] "pkg.mod" none
        (.imported ⟨.absent, .absent,
          [("IntegrationOne", .cls true false (.returns cAlpha)),
           ("IntegrationTwo", .cls true false (.returns cBeta))]⟩) =
      .ok (([] : Registry) ++ [(cAlpha.name, cAlpha), (cBeta.name, cBeta)],
        [cAlpha, cBeta]) :=
  ⟨loadModulePriorityOrder.1 [] "pkg.mod"
      (some fun _ => PluginModuleOutcome.returns cGamma)
      (.importFails "boom") cGamma rfl rfl,
   loadModulePriorityOrder.2.1 [] "pkg.mod" none pyModuleFactory cGamma
      rfl rfl rfl,
   loadModulePriorityOrder.2.2 [] "pkg.mod" cAlpha cBeta
      (by decide) (by decide) rfl rfl (by decide)⟩

/-- Claim C10: when the plugin loader yields a conformant candidate whose
name is already registered, `load_integration_module` does not surface the
duplicate-registration error: it proceeds to the module-import fallback
chain, and the overall call never results in a duplicate-registration
`QuackError`. -/
theorem pluginDuplicateFallsThrough (reg : Registry) (mp : String)
    (pl : Option (String → PluginModuleOutcome)) (res : ModuleResolution)
    (c : Candidate)
    (hpl : load_integration_with_plugin_loader mp pl = some c)
    (hdup : is_registered reg c.name = true) :
    load_integration_module reg mp pl res = moduleFallback reg mp res ∧
    ∀ n, load_integration_module reg mp pl res ≠
      .error (.duplicateIntegration n) := by
  have hm : c.name ∈ reg.map Prod.fst := by
    simpa [is_registered] using hdup
  have heq : load_integration_module reg mp pl res =
      moduleFallback reg mp res := by
    simp [load_integration_module, hpl, register, hm]
  refine ⟨heq, ?_⟩
  intro n hcontra
  rw [heq] at hcontra
  rcases moduleFallback_error_shape reg mp res _ hcontra with ⟨msg, hmsg, _⟩
  exact QuackError.noConfusion hmsg

/-- Witness for C10: a plugin loader returning a second candidate named
`alpha` against a table already holding the key `alpha`; the call falls
through to the (empty, resolvable) module and returns an empty result. -/
theorem pluginDuplicateFallsThroughWitness :
    load_integration_module [("alpha", cAlpha)] "pkg.mod"
        (some fun _ => PluginModuleOutcome.returns cAlpha2)
        (.imported pyModuleEmpty) =
      moduleFallback [("alpha", cAlpha)] "pkg.mod" (.imported pyModuleEmpty) ∧
    ∀ n, load_integration_module [("alpha", cAlpha)] "pkg.mod"
        (some fun _ => PluginModuleOutcome.returns cAlpha2)
        (.imported pyModuleEmpty) ≠
      .error (.duplicateIntegration n) :=
  pluginDuplicateFallsThrough [("alpha", cAlpha)] "pkg.mod"
    (some fun _ => PluginModuleOutcome.returns cAlpha2)
    (.imported pyModuleEmpty) cAlpha2 rfl (by decide)

/-- Helper: the full structural check implies the presence-only check. -/
theorem structuralCheck_imp_presenceCheck (c : Candidate)
    (h : structuralCheck c = true) : presenceCheck c = true := by
  simp only [structuralCheck, Bool.and_eq_true] at h
  simp only [presenceCheck, Bool.and_eq_true]
  exact h.1.1

/-- Helper: the plugin-loader strategy of `load_integration_module` accepts
only structurally conformant candidates. -/
theorem pluginModule_conformant (mp : String)
    (pl : Option (String → PluginModuleOutcome)) (c : Candidate)
    (h : load_integration_with_plugin_loader mp pl = some c) :
    structuralCheck c = true := by
  unfold load_integration_with_plugin_loader at h
  cases pl with
  | none => simp at h
  | some loader =>
    rcases hl : loader mp with _ | c'
    · simp [hl] at h
    · rcases hsc : structuralCheck c' with _ | _
      · simp [hl, hsc] at h
      · simp [hl, hsc] at h
        exact h ▸ hsc

/-- Helper: the factory strategy accepts only structurally conformant
candidates. -/
theorem factory_conformant (m : PyModule) (c : Candidate)
    (h : load_integration_from_factory m = some c) :
    structuralCheck c = true := by
  unfold load_integration_from_factory at h
  rcases hcf : m.create_integration with _ | _ | _ | c'
  · simp [hcf] at h
  · simp [hcf] at h
  · simp [hcf] at h
  · rcases hsc : structuralCheck c' with _ | _
    · simp [hcf, hsc] at h
    · simp [hcf, hsc] at h
      exact h ▸ hsc

/-- Helper: the entry-point fallback accepts only candidates passing the
`isinstance` conformance check. -/
theorem entryFactoryFallback_conformant (e : EntryPoint) (c : Candidate)
    (h : entryFactoryFallback e = some c) :
    isinstanceIntegrationProtocol c = true := by
  unfold entryFactoryFallback at h
  rcases hl : e.loadResult with _ | _ | _ | c'
  · simp [hl] at h
  · simp [hl] at h
  · simp [hl] at h
  · rcases hic : isinstanceIntegrationProtocol c' with _ | _
    · simp [hl, hic] at h
    · simp [hl, hic] at h
      exact h ▸ hic

/-- Helper: the full entry-point path accepts only candidates passing the
`isinstance` conformance check. -/
theorem entry_conformant (e : EntryPoint)
    (pl : Option (String → PluginOutcome)) (c : Candidate)
    (h : load_integration_from_entry e pl = some c) :
    isinstanceIntegrationProtocol c = true := by
  unfold load_integration_from_entry at h
  cases pl with
  | none =>
    have h' : entryFactoryFallback e = some c := h
    exact entryFactoryFallback_conformant e c h'
  | some loader =>
    rcases hl : loader e.value with _ | _ | c'
    · simp only [hl] at h
      exact entryFactoryFallback_conformant e c h
    · simp [hl] at h
    · rcases hic : isinstanceIntegrationProtocol c' with _ | _
      · simp only [hl, hic] at h
        simp only [Bool.false_eq_true, if_false] at h
        exact entryFactoryFallback_conformant e c h
      · simp [hl, hic] at h
        exact h ▸ hic

/-- Helper: the class scan accepts only structurally conformant
candidates. -/
theorem scanAttr_conformant (p : String × ModuleAttr) (c : Candidate)
    (h : scanAttr p = some c) : structuralCheck c = true := by
  rcases p with ⟨n, a⟩
  rcases hskip : (pyStartsWith n "_" || n == "TestIntegration") with _ | _
  · cases a with
    | nonClass => simp [scanAttr, hskip] at h
    | cls d ip inst =>
      rcases hloc : (d && !ip) with _ | _
      · simp [scanAttr, hskip, hloc] at h
      · cases inst with
        | raises => simp [scanAttr, hskip, hloc] at h
        | returns c' =>
          rcases hsc : structuralCheck c' with _ | _
          · simp [scanAttr, hskip, hloc, hsc] at h
          · simp [scanAttr, hskip, hloc, hsc] at h
            exact h ▸ hsc
  · simp [scanAttr, hskip] at h

/-- Helper: every candidate produced by the module scan, the special-cased
test class included, passes at least the presence-only check. -/
theorem moduleScan_presence (m : PyModule) (c : Candidate)
    (h : c ∈ load_integrations_from_module m) : presenceCheck c = true := by
  unfold load_integrations_from_module at h
  rw [List.mem_append] at h
  rcases h with h | h
  · rcases ht : m.testIntegration with _ | _ | _ | c'
    · simp [ht] at h
    · simp [ht] at h
    · simp [ht] at h
    · rcases hpc : presenceCheck c' with _ | _
      · simp [ht, hpc] at h
      · simp [ht, hpc] at h
        exact h.symm ▸ hpc
  · rcases List.mem_filterMap.mp h with ⟨p, _, hp⟩
    exact structuralCheck_imp_presenceCheck c (scanAttr_conformant p c hp)

/-- Counterexample for claim C5: the special-cased `TestIntegration`
acceptance point accepts `cBadInit`, whose `initialize` attribute is not
callable, so not every acceptance point applies the full structural check
(presence plus callability). -/
theorem testClassSkipsCallabilityCounterexample :
    load_integrations_from_module pyModuleTestOnly = [cBadInit] ∧
    presenceCheck cBadInit = true ∧
    structuralCheck cBadInit = false :=
  ⟨rfl, rfl, rfl⟩

/-- Claim C5 (amended): the plugin-loader, factory, and class-scan
acceptance points accept a candidate only if it passes the full structural
check; the entry-point path accepts only `isinstance`-conformant candidates
(per the spec's description of the missing protocols module, the same
structural check); the special-cased test class is the exception — every
candidate produced by the module scan is guaranteed only the presence of the
four attributes, not callability. -/
theorem conformanceCheckPerPath :
    (∀ (mp : String) (pl : Option (String → PluginModuleOutcome))
       (c : Candidate),
       load_integration_with_plugin_loader mp pl = some c →
       structuralCheck c = true) ∧
    (∀ (m : PyModule) (c : Candidate),
       load_integration_from_factory m = some c →
       structuralCheck c = true) ∧
    (∀ (e : EntryPoint) (pl : Option (String → PluginOutcome))
       (c : Candidate),
       load_integration_from_entry e pl = some c →
       isinstanceIntegrationProtocol c = true) ∧
    (∀ (p : String × ModuleAttr) (c : Candidate),
       scanAttr p = some c → structuralCheck c = true) ∧
    (∀ (m : PyModule) (c : Candidate),
       c ∈ load_integrations_from_module m → presenceCheck c = true) :=
  ⟨pluginModule_conformant, factory_conformant, entry_conformant,
   scanAttr_conformant, moduleScan_presence⟩

/-- Witness for the amended C5: each acceptance point exercised at a
concrete conformant candidate, and the test-class point at `cBadInit`. -/
theorem conformanceCheckPerPathWitness :
    structuralCheck cAlpha = true ∧
    structuralCheck cGamma = true ∧
    isinstanceIntegrationProtocol cBeta = true ∧
    structuralCheck cAlpha2 = true ∧
    presenceCheck cBadInit = true :=
  ⟨conformanceCheckPerPath.1 "pkg.mod"
      (some fun _ => PluginModuleOutcome.returns cAlpha) cAlpha rfl,
   conformanceCheckPerPath.2.1 pyModuleFactory cGamma rfl,
   conformanceCheckPerPath.2.2.1 ⟨"good", "pkg.good", .factoryReturns cBeta⟩
      none cBeta rfl,
   conformanceCheckPerPath.2.2.2.1
      ("IntegrationOne", .cls true false (.returns cAlpha2)) cAlpha2 rfl,
   conformanceCheckPerPath.2.2.2.2 pyModuleTestOnly cBadInit (by decide)⟩

/-- Counterexample for claim C3: with a plugin loader resolving the
identifier to a fresh conformant candidate, `load_integration_module`
returns successfully even though the identifier cannot be resolved to a
module (the import fails), so the module-load error is not raised at every
identifier that fails import resolution. -/
theorem unresolvedModuleNoErrorCounterexample :
    load_integration_module [] "ghost.module"
        (some fun _ => PluginModuleOutcome.returns cGamma)
        (.importFails "No module named ghost") =
      .ok ([("gamma", cGamma)], [cGamma]) :=
  rfl

/-- Claim C3 (amended): `load_integration_module` raises only the
module-load error and only when the import fails; when the import fails and
the plugin-loader strategy does not short-circuit (it yields nothing, or
only duplicate-named candidates), the module-load error is raised and
nothing is registered; and for a resolvable module in which no strategy
finds a conformant integration, the call returns the empty list, registers
nothing, and does not raise. -/
theorem moduleLoadErrorConditions :
    (∀ (reg : Registry) (mp : String)
       (pl : Option (String → PluginModuleOutcome)) (res : ModuleResolution)
       (err : QuackError),
       load_integration_module reg mp pl res = .error err →
       ∃ msg, err = .moduleLoad mp msg ∧ res = .importFails msg) ∧
    (∀ (reg : Registry) (mp : String)
       (pl : Option (String → PluginModuleOutcome)) (msg : String),
       (∀ c, load_integration_with_plugin_loader mp pl = some c →
          is_registered reg c.name = true) →
       load_integration_module reg mp pl (.importFails msg) =
         .error (.moduleLoad mp msg)) ∧
    (∀ (reg : Registry) (mp : String)
       (pl : Option (String → PluginModuleOutcome)) (m : PyModule),
       load_integration_with_plugin_loader mp pl = none →
       load_integration_from_factory m = none →
       load_integrations_from_module m = [] →
       load_integration_module reg mp pl (.imported m) = .ok (reg, [])) := by
  refine ⟨?_, ?_, ?_⟩
  · intro reg mp pl res err h
    unfold load_integration_module at h
    rcases hpl : load_integration_with_plugin_loader mp pl with _ | c
    · simp only [hpl] at h
      exact moduleFallback_error_shape reg mp res err h
    · simp only [hpl] at h
      rcases hr : register reg c with e | r
      · simp only [hr] at h
        exact moduleFallback_error_shape reg mp res err h
      · simp only [hr] at h
        exact Except.noConfusion h
  · intro reg mp pl msg hcond
    rcases hpl : load_integration_with_plugin_loader mp pl with _ | c
    · simp [load_integration_module, hpl, moduleFallback]
    · have hm : c.name ∈ reg.map Prod.fst := by
        simpa [is_registered] using hcond c hpl
      simp [load_integration_module, hpl, register, hm, moduleFallback]
  · intro reg mp pl m hpl hf hscan
    simp [load_integration_module, hpl, moduleFallback, hf, hscan,
      registerAll]

/-- Witness for the amended C3: a one-sided error analysis at an import
failure, the raised error at an import failure with no plugin loader, and
the empty successful result on the empty resolvable module. -/
theorem moduleLoadErrorConditionsWitness :
    (∃ msg, (QuackError.moduleLoad "ghost.module" "boom" : QuackError) =
        .moduleLoad "ghost.module" msg ∧
      (ModuleResolution.importFails "boom" : ModuleResolution) =
        .importFails msg) ∧
    load_integration_module [] "ghost.module" none (.importFails "boom") =
      .error (.moduleLoad "ghost.module" "boom") ∧
    load_integration_module [] "ghost.module" none
        (.imported pyModuleEmpty) = .ok ([], []) :=
  ⟨moduleLoadErrorConditions.1 [] "ghost.module" none (.importFails "boom")
      (.moduleLoad "ghost.module" "boom") rfl,
   moduleLoadErrorConditions.2.1 [] "ghost.module" none "boom"
      (fun _ h => Option.noConfusion h),
   moduleLoadErrorConditions.2.2 [] "ghost.module" none pyModuleEmpty
      rfl rfl rfl⟩

/-- Claim C6: `get_llm_client` lowercases the provider name before lookup,
so any two case variants of a registered provider name resolve to the same
client; and a name whose lowercase form is not a key raises the
unsupported-provider error whose message contains the enumeration of the
registered provider names. -/
theorem getLlmClientSpec :
    (∀ (registry : LLMRegistry) (n1 n2 : String) (opts : LLMOptions),
       pyToLower n1 = pyToLower n2 →
       pyToLower n1 ∈ registry.map Prod.fst →
       ∃ client, get_llm_client registry n1 opts = .ok client ∧
         get_llm_client registry n2 opts = .ok client) ∧
    (∀ (registry : LLMRegistry) (n : String) (opts : LLMOptions),
       pyToLower n ∉ registry.map Prod.fst →
       ∃ pre, get_llm_client registry n opts =
         .error (pre ++ String.intercalate ", " (registry.map Prod.fst))) := by
  constructor
  · intro registry n1 n2 opts hlow hmem
    unfold get_llm_client
    rw [← hlow]
    rcases hf : registry.find? (fun p => p.1 == pyToLower n1) with _ | entry
    · exfalso
      rcases List.mem_map.mp hmem with ⟨p, hp, hpn⟩
      have := List.find?_eq_none.mp hf p hp
      simp [hpn] at this
    · simp only [hf]
      exact ⟨entry.2 opts, rfl, rfl⟩
  · intro registry n opts hmem
    unfold get_llm_client
    rcases hf : registry.find? (fun p => p.1 == pyToLower n) with _ | entry
    · simp only [hf]
      exact ⟨"Unsupported LLM provider: " ++ n ++ ". Registered providers: ",
        rfl⟩
    · exfalso
      have hp := List.find?_some hf
      have hmem' := List.mem_of_find?_eq_some hf
      simp only [beq_iff_eq] at hp
      exact hmem (hp ▸ List.mem_map_of_mem Prod.fst hmem')

/-- Witness for C6: on the one-provider table holding `mock`, resolving
`MOCK` and `mock` with the same script yields the same client, and an
unknown name yields the error message carrying the provider list. -/
theorem getLlmClientSpecWitness :
    (∃ client,
       get_llm_client [("mock", MockLLMClient)] "MOCK"
           ⟨none, none, ["a", "b"]⟩ = .ok client ∧
       get_llm_client [("mock", MockLLMClient)] "mock"
           ⟨none, none, ["a", "b"]⟩ = .ok client) ∧
    (∃ pre, get_llm_client [("mock", MockLLMClient)] "doesnotexist"
        ⟨none, none, []⟩ =
      .error (pre ++ String.intercalate ", "
        (([("mock", MockLLMClient)] : LLMRegistry).map Prod.fst))) :=
  ⟨getLlmClientSpec.1 [("mock", MockLLMClient)] "MOCK" "mock"
      ⟨none, none, ["a", "b"]⟩ rfl (by decide),
   getLlmClientSpec.2 [("mock", MockLLMClient)] "doesnotexist"
      ⟨none, none, []⟩ (by decide)⟩

end Quack
